import Mathlib

/-!
Shallow embedding of the proxy-candidate failover resolver in
`notte_mcp_server.py` (functions `_make_notte_proxy_from_url`,
`_set_env_proxy_vars`, `_discover_mcp_router_via_fastcloud`,
`_run_notte_sync`, `run_notte`, `_str_to_bool`).

External collaborators (the Notte SDK client and proxy constructors, the
`requests` calls to the geolocation oracle and the discovery directory, DNS
resolution, and the automation session) are modelled by an `Oracle` record
of their responses; calls to the geolocation oracle and to the session are
numbered in call order, so "identical collaborator responses" means
"the same Oracle value".  The `os.environ` proxy variables written by
`_set_env_proxy_vars` are threaded as an explicit `Option String` state
(all six variables are always set to the same value, so one field
suffices).  A `trace` field records the observable calls (candidate
attempts, geo observations with the environment in force at that moment,
session invocations) and `recorded` logs every assignment to `last_err`.
-/

namespace NotteMCP

/-- A constructed Notte proxy object; opaque to the resolver, identified by a tag. -/
structure Proxy where
  tag : String
deriving DecidableEq, Repr

/-- Parsed fields of `urllib.parse.urlparse`: `scheme` (empty string when
absent, as in Python), `hostname` and `port` (`none` when absent or when
access would raise). -/
structure UrlParts where
  scheme : String
  hostname : Option String
  port : Option Nat
deriving DecidableEq, Repr

/-- Body of the geolocation oracle's JSON response: `country` and `ip`
fields, already defaulted to `""` when missing (the code uses `.get(k, "")`). -/
structure GeoData where
  country : String
  ip : String
deriving DecidableEq, Repr

/-- Result of `_is_ip_outside_brazil`: `{"ok": True, "data": ...}` or
`{"ok": False, "error": ...}`. -/
inductive GeoResult where
  | ok (data : GeoData)
  | err (msg : String)
deriving DecidableEq, Repr

/-- JSON payload of the FastCloud discovery response: the two fields the
code reads with `payload.get`. -/
structure DiscoveryPayload where
  router_address : Option String
  proxy_url : Option String
deriving DecidableEq, Repr

/-- Responses of every external collaborator consumed during one resolution
call.  `Except.error` models a raised Python exception.  `geo` and
`session` are indexed by call count, in call order. -/
structure Oracle where
  clientInit : Except String Unit
  fromCountryBr : Except String Proxy
  hasFromUrl : Bool
  fromUrl : String → Except String Proxy
  hasFromHostPort : Bool
  fromHostPort : String → Nat → String → Except String Proxy
  urlparse : String → UrlParts
  resolveHostname : String → Option String
  discoveryGet : Except String DiscoveryPayload
  geo : Nat → GeoResult
  session : Nat → Except String String

/-- Python `str.lower`, modelled character-wise (the code only compares
the result against ASCII literals). -/
def pyLower (s : String) : String := String.mk (s.data.map Char.toLower)

/-- Leading-whitespace removal on a character list. -/
def dropLeadingWs : List Char → List Char
  | [] => []
  | c :: cs => if c.isWhitespace then dropLeadingWs cs else c :: cs

/-- Python `str.strip`: whitespace removed from both ends. -/
def pyStrip (s : String) : String :=
  String.mk ((dropLeadingWs (dropLeadingWs s.data).reverse).reverse)

/-- Python truthiness of an optional string (`None` and `""` are falsy). -/
def pyTruthyStr : Option String → Bool
  | none => false
  | some s => !s.isEmpty

/-- `_str_to_bool`: strip, lowercase, and compare against the accepted
truthy literals. -/
def str_to_bool (val : Option String) (dflt : Bool) : Bool :=
  match val with
  | none => dflt
  | some v =>
    let s := pyLower (pyStrip v)
    s == "1" || s == "true" || s == "yes" || s == "on"

/-- `_make_notte_proxy_from_url`: `None` for falsy input; otherwise strip,
try `NotteProxy.from_url` when present (a raise is swallowed), then try
`urlparse` plus `NotteProxy.from_host_port` when host and port are truthy
and the constructor is present (a raise is swallowed), else `None`. -/
def make_notte_proxy_from_url (ora : Oracle) (url : Option String) : Option Proxy :=
  match url with
  | none => none
  | some u =>
    if u.isEmpty then none
    else
      let u := pyStrip u
      let viaFromUrl : Option Proxy :=
        if ora.hasFromUrl then (ora.fromUrl u).toOption else none
      match viaFromUrl with
      | some p => some p
      | none =>
        let parsed := ora.urlparse u
        let scheme := if parsed.scheme.isEmpty then "http" else parsed.scheme
        match parsed.hostname, parsed.port with
        | some h, some prt =>
          if !h.isEmpty && prt != 0 && ora.hasFromHostPort then
            (ora.fromHostPort h prt scheme).toOption
          else none
        | _, _ => none

/-- `_discover_mcp_router_via_fastcloud`: requires both the endpoint and
the token; a failed request yields `None`; the address is
`payload.get("router_address") or payload.get("proxy_url")` under Python
truthiness, and only a truthy address is returned. -/
def discover_mcp_router_via_fastcloud (ora : Oracle) (apiUrl token : String) :
    Option String :=
  if apiUrl.isEmpty || token.isEmpty then none
  else
    match ora.discoveryGet with
    | Except.error _ => none
    | Except.ok payload =>
      let addr : Option String :=
        match payload.router_address with
        | some ra => if ra.isEmpty then payload.proxy_url else some ra
        | none => payload.proxy_url
      match addr with
      | some s => if s.isEmpty then none else some s
      | none => none

/-- Arguments of `_run_notte_sync` (the session-configuration fields are
carried for fidelity; their values only reach the session collaborator). -/
structure Args where
  targetUrl : String
  browserType : String
  headless : Bool
  locale : String
  mcpProxyUrl : Option String
  mcpRouterHostname : Option String
  fastcloudApiUrl : Option String
  fastcloudApiToken : Option String
  skipGeoCheck : Bool
  forceUseMcpRouter : Bool
deriving DecidableEq, Repr

/-- The explicit-URL contribution to the candidate list (lines 179-180). -/
def explicitCandidates (a : Args) : List String :=
  match a.mcpProxyUrl with
  | some u => if u.isEmpty then [] else [pyStrip u]
  | none => []

/-- The router-hostname contribution to the candidate list (lines 182-194):
use as-is when `urlparse` finds a scheme and hostname, otherwise DNS-resolve
(default SOCKS5 port 1080), falling back to the raw hostname. -/
def routerCandidates (ora : Oracle) (a : Args) : List String :=
  match a.mcpRouterHostname with
  | some h =>
    if h.isEmpty then []
    else
      let parsed := ora.urlparse h
      if !parsed.scheme.isEmpty && pyTruthyStr parsed.hostname then [pyStrip h]
      else
        match ora.resolveHostname h with
        | some r => ["socks5://" ++ r ++ ":1080"]
        | none => ["socks5://" ++ h ++ ":1080"]
  | none => []

/-- The discovery contribution to the candidate list (lines 196-200). -/
def discoveryCandidates (ora : Oracle) (a : Args) : List String :=
  match a.fastcloudApiUrl, a.fastcloudApiToken with
  | some au, some tok =>
    if au.isEmpty || tok.isEmpty then []
    else
      match discover_mcp_router_via_fastcloud ora au tok with
      | some d => if d.isEmpty then [] else [d]
      | none => []
  | _, _ => []

/-- The fallback candidate list of `_run_notte_sync` (lines 176-200),
built by appending the three sources in precedence order. -/
def buildCandidates (ora : Oracle) (a : Args) : List String :=
  explicitCandidates a ++ routerCandidates ora a ++ discoveryCandidates ora a

/-- Observable events of one resolution call: entering the fallback
section, starting a candidate iteration, a geolocation observation (with
the environment proxy setting in force during the request), and a session
invocation (with the candidate, `none` for the primary, and the
environment proxy setting in force). -/
inductive Event where
  | fallbackComputed
  | tryCandidate (cand : String)
  | geoObserve (cand : String) (env : Option String)
  | sessionAttempt (cand : Option String) (env : Option String)
deriving DecidableEq, Repr

/-- Mutable state threaded through `_run_notte_sync`: the `os.environ`
proxy variables, the two collaborator call counters, `last_err`, the log
of every value ever assigned to `last_err`, and the event trace. -/
structure LoopState where
  env : Option String
  geoIdx : Nat
  sessIdx : Nat
  lastErr : Option String
  recorded : List String
  trace : List Event
deriving DecidableEq, Repr

/-- The dictionary returned by `_run_notte_sync`: the four
`status`/`route` combinations of lines 170, 203, 236 and 243. -/
inductive Outcome where
  | okBr (result : String)
  | okMcp (candidate : String) (result : String)
  | noCandidates
  | allFailed (lastErr : Option String)
deriving DecidableEq, Repr

/-- The `status` field of the returned dictionary. -/
def Outcome.status : Outcome → String
  | okBr _ => "ok"
  | okMcp _ _ => "ok"
  | noCandidates => "error"
  | allFailed _ => "error"

/-- The `route` field of the returned dictionary. -/
def Outcome.route : Outcome → String
  | okBr _ => "notte_proxy_br"
  | okMcp _ _ => "mcp_proxy_used"
  | noCandidates => "no_mcp_candidates"
  | allFailed _ => "mcp_all_failed"

/-- The `last_err` message recorded when a candidate is geo-rejected
(line 229). -/
def rejectMsg (cand ip : String) : String :=
  "candidate " ++ cand ++ " resulted in BR IP " ++ ip

/-- The geo gate of one loop iteration (lines 219-232): unless
`skip_geo_check`, observe the egress; on a successful observation
reporting country `br`, record the rejection in `last_err` and signal
`true` (continue to the next candidate); a failed observation does not
reject.  `env1` is the environment proxy setting in force. -/
def geoPhase (ora : Oracle) (a : Args) (cand : String) (env1 : Option String)
    (st1 : LoopState) : LoopState × Bool :=
  if a.skipGeoCheck then (st1, false)
  else
    let st2 : LoopState :=
      { st1 with
        geoIdx := st1.geoIdx + 1
        trace := st1.trace ++ [Event.geoObserve cand env1] }
    match ora.geo st1.geoIdx with
    | GeoResult.ok data =>
      if pyLower data.country == "br" then
        let msg := rejectMsg cand data.ip
        ({ st2 with lastErr := some msg, recorded := st2.recorded ++ [msg] }, true)
      else (st2, false)
    | GeoResult.err _ => (st2, false)

/-- The session attempt of one loop iteration (lines 234-241): invoke the
session; on success return the `mcp_proxy_used` outcome, on a raise record
the traceback in `last_err` and continue. -/
def sessionPhase (ora : Oracle) (cand : String) (env1 : Option String)
    (st3 : LoopState) : LoopState × Option Outcome :=
  let st4 : LoopState :=
    { st3 with
      sessIdx := st3.sessIdx + 1
      trace := st3.trace ++ [Event.sessionAttempt (some cand) env1] }
  match ora.session st3.sessIdx with
  | Except.ok ans => (st4, some (Outcome.okMcp cand ans))
  | Except.error tb =>
    ({ st4 with lastErr := some tb, recorded := st4.recorded ++ [tb] }, none)

/-- `_set_env_proxy_vars` (lines 69-73): overwrite all six proxy
variables with `url`, except that a falsy (empty) `url` returns at once
and leaves them unchanged. -/
def set_env_proxy_vars (url : String) (env : Option String) : Option String :=
  if url.isEmpty then env else some url

/-- The environment proxy setting in force during one loop iteration
(lines 213-216): when parsing the candidate fails, `_set_env_proxy_vars`
is called with the candidate URL (a no-op for an empty candidate); when
parsing succeeds the variables are left exactly as they were. -/
def stepEnv (ora : Oracle) (cand : String) (st : LoopState) : Option String :=
  if (make_notte_proxy_from_url ora (some cand)).isNone
  then set_env_proxy_vars cand st.env else st.env

/-- State at the top of one loop iteration: the candidate-attempt event is
logged and, as `stepEnv` says, the environment proxy variables are
overwritten exactly when parsing the candidate failed (lines 213-216). -/
def stepSt1 (ora : Oracle) (cand : String) (st : LoopState) : LoopState :=
  { st with
    env := stepEnv ora cand st
    trace := st.trace ++ [Event.tryCandidate cand] }

/-- One iteration of the candidate loop (lines 211-241): parse the
candidate and set up the environment (`stepSt1`), run the geo gate
(`geoPhase`), and unless geo-rejected run the session (`sessionPhase`). -/
def stepCandidate (ora : Oracle) (a : Args) (cand : String) (st : LoopState) :
    LoopState × Option Outcome :=
  match geoPhase ora a cand (stepEnv ora cand st) (stepSt1 ora cand st) with
  | (st3, true) => (st3, none)
  | (st3, false) => sessionPhase ora cand (stepEnv ora cand st) st3

/-- The candidate loop (lines 210-241): run `stepCandidate` on each
candidate in order, stopping at the first returned outcome. -/
def tryCandidates (ora : Oracle) (a : Args) :
    List String → LoopState → LoopState × Option Outcome
  | [], st => (st, none)
  | cand :: rest, st =>
    match stepCandidate ora a cand st with
    | (st1, some out) => (st1, some out)
    | (st1, none) => tryCandidates ora a rest st1

/-- The fallback section (lines 176-243): build the candidate list; when
it is empty return the `no_mcp_candidates` error; otherwise run the loop,
and on exhaustion return `mcp_all_failed` carrying `last_err`. -/
def fallbackScan (ora : Oracle) (a : Args) (st : LoopState) : LoopState × Outcome :=
  let st1 : LoopState := { st with trace := st.trace ++ [Event.fallbackComputed] }
  let cands := buildCandidates ora a
  if cands.isEmpty then (st1, Outcome.noCandidates)
  else
    match tryCandidates ora a cands st1 with
    | (st2, some out) => (st2, out)
    | (st2, none) => (st2, Outcome.allFailed st2.lastErr)

/-- The primary attempt (lines 157-173): unless the router is forced,
request the home-country proxy; when obtained, invoke the session with it
(no geo gate).  Returns `some` outcome on session success, `none` to fall
through to the fallback section (a primary failure sets no `last_err`). -/
def primaryPhase (ora : Oracle) (a : Args) (st0 : LoopState) :
    LoopState × Option Outcome :=
  if a.forceUseMcpRouter then (st0, none)
  else
    match ora.fromCountryBr with
    | Except.error _ => (st0, none)
    | Except.ok _ =>
      let st1 : LoopState :=
        { st0 with
          sessIdx := st0.sessIdx + 1
          trace := st0.trace ++ [Event.sessionAttempt none st0.env] }
      match ora.session st0.sessIdx with
      | Except.ok ans => (st1, some (Outcome.okBr ans))
      | Except.error _ => (st1, none)

/-- Result of `_run_notte_sync`: the returned dictionary plus the final
instrumented state. -/
structure RunResult where
  outcome : Outcome
  state : LoopState
deriving DecidableEq, Repr

/-- State at entry of `_run_notte_sync`: `env0` is whatever the process
environment proxy variables held when the call started (they survive
across calls), counters at zero, no `last_err`, empty trace. -/
def initState (env0 : Option String) : LoopState :=
  { env := env0, geoIdx := 0, sessIdx := 0, lastErr := none, recorded := [], trace := [] }

/-- `_run_notte_sync` (lines 118-243): construct the client (line 141 is
outside any handler, so a raise there propagates, modelled as
`Except.error`), then the primary attempt, then the fallback section. -/
def run_notte_sync (ora : Oracle) (a : Args) (env0 : Option String) :
    Except String RunResult :=
  match ora.clientInit with
  | Except.error e => Except.error e
  | Except.ok _ =>
    let st0 : LoopState := initState env0
    match primaryPhase ora a st0 with
    | (st1, some out) => Except.ok { outcome := out, state := st1 }
    | (st1, none) =>
      let r := fallbackScan ora a st1
      Except.ok { outcome := r.2, state := r.1 }

/-- Environment variables read by `run_notte`; `none` means unset. -/
structure EnvVars where
  NOTTE_API_KEY : Option String
  TARGET_URL : Option String
  HEADLESS : Option String
  BROWSER_TYPE : Option String
  LOCALE : Option String
  MCP_PROXY_URL : Option String
  MCP_ROUTER_HOSTNAME : Option String
  FASTCLOUD_API_URL : Option String
  FASTCLOUD_API_TOKEN : Option String
  FORCE_USE_MCP_ROUTER : Option String
  SKIP_GEO_CHECK : Option String
deriving DecidableEq, Repr

/-- Parameters of the `run_notte` tool; `none` means not supplied. -/
structure ToolParams where
  target_url : Option String
  headless : Option Bool
  browser_type : Option String
  locale : Option String
  use_mcp_router : Option Bool
  skip_geo_check : Option Bool
deriving DecidableEq, Repr

/-- Python `x or d` for an optional string against a string default
(`None` and `""` both fall back to the default). -/
def pyOrD (v : Option String) (d : String) : String :=
  match v with
  | some s => if s.isEmpty then d else s
  | none => d

/-- The `_run_notte_sync` arguments `run_notte` assembles from its
parameters and the environment (lines 268-296). -/
def finalArgs (ev : EnvVars) (p : ToolParams) : Args :=
  { targetUrl := pyOrD p.target_url (ev.TARGET_URL.getD "https://shopee.com.br")
    browserType := pyOrD p.browser_type (ev.BROWSER_TYPE.getD "firefox")
    headless := p.headless.getD (str_to_bool (some (ev.HEADLESS.getD "False")) false)
    locale := pyOrD p.locale (ev.LOCALE.getD "pt-BR")
    mcpProxyUrl := some (pyStrip (ev.MCP_PROXY_URL.getD ""))
    mcpRouterHostname := some (pyStrip (ev.MCP_ROUTER_HOSTNAME.getD ""))
    fastcloudApiUrl := some (pyStrip (ev.FASTCLOUD_API_URL.getD ""))
    fastcloudApiToken := some (pyStrip (ev.FASTCLOUD_API_TOKEN.getD ""))
    skipGeoCheck :=
      match p.skip_geo_check with
      | none => str_to_bool (some (ev.SKIP_GEO_CHECK.getD "False")) false
      | some b => b
    forceUseMcpRouter :=
      match p.use_mcp_router with
      | none => str_to_bool (some (ev.FORCE_USE_MCP_ROUTER.getD "False")) false
      | some b => b }

/-- Value returned by the `run_notte` tool: either the early
missing-credential error dictionary (line 266) or the dictionary produced
by `_run_notte_sync`. -/
inductive ToolReturn where
  | configError (error : String)
  | resolved (r : RunResult)
deriving DecidableEq, Repr

/-- `run_notte` (lines 250-297): reject a missing or placeholder
`NOTTE_API_KEY` before anything else, then delegate to `_run_notte_sync`
with the assembled arguments. -/
def run_notte (ora : Oracle) (ev : EnvVars) (p : ToolParams)
    (env0 : Option String) : Except String ToolReturn :=
  let api_key := ev.NOTTE_API_KEY.getD ""
  if api_key.isEmpty || api_key == "SUA_CHAVE_API_PRO" then
    Except.ok (ToolReturn.configError "NOTTE_API_KEY não definido.")
  else
    (run_notte_sync ora (finalArgs ev p) env0).map ToolReturn.resolved

/-- The caller-visible part of a tool return: the early error message or
the returned outcome dictionary (the instrumented state is not part of the
Python return value). -/
inductive ToolView where
  | configError (error : String)
  | outcome (o : Outcome)
deriving DecidableEq, Repr

/-- Project a tool return onto what the caller sees. -/
def viewOf : ToolReturn → ToolView
  | ToolReturn.configError e => ToolView.configError e
  | ToolReturn.resolved rr => ToolView.outcome rr.outcome

/-- The candidate strings whose loop iteration started, in trace order. -/
def attemptsOf : List Event → List String
  | [] => []
  | Event.tryCandidate c :: rest => c :: attemptsOf rest
  | _ :: rest => attemptsOf rest

/-- The collaborator-facing components of the loop state (call counters,
`last_err`, the recorded reasons): everything except the environment
variables and the trace. -/
def sem (st : LoopState) : Nat × Nat × Option String × List String :=
  (st.geoIdx, st.sessIdx, st.lastErr, st.recorded)

/-! Equation lemmas for the phases of one loop iteration. -/

theorem geoPhase_skip (ora : Oracle) (a : Args) (cand : String)
    (env1 : Option String) (st1 : LoopState) (h : a.skipGeoCheck = true) :
    geoPhase ora a cand env1 st1 = (st1, false) := by
  simp [geoPhase, h]

theorem geoPhase_reject (ora : Oracle) (a : Args) (cand : String)
    (env1 : Option String) (st1 : LoopState) (data : GeoData)
    (h : a.skipGeoCheck = false) (hg : ora.geo st1.geoIdx = GeoResult.ok data)
    (hbr : pyLower data.country = "br") :
    geoPhase ora a cand env1 st1 =
      ({ st1 with
          geoIdx := st1.geoIdx + 1
          trace := st1.trace ++ [Event.geoObserve cand env1]
          lastErr := some (rejectMsg cand data.ip)
          recorded := st1.recorded ++ [rejectMsg cand data.ip] }, true) := by
  simp [geoPhase, h, hg, hbr]

theorem geoPhase_pass (ora : Oracle) (a : Args) (cand : String)
    (env1 : Option String) (st1 : LoopState) (data : GeoData)
    (h : a.skipGeoCheck = false) (hg : ora.geo st1.geoIdx = GeoResult.ok data)
    (hbr : pyLower data.country ≠ "br") :
    geoPhase ora a cand env1 st1 =
      ({ st1 with
          geoIdx := st1.geoIdx + 1
          trace := st1.trace ++ [Event.geoObserve cand env1] }, false) := by
  simp [geoPhase, h, hg, hbr]

theorem geoPhase_unknown (ora : Oracle) (a : Args) (cand : String)
    (env1 : Option String) (st1 : LoopState) (e : String)
    (h : a.skipGeoCheck = false) (hg : ora.geo st1.geoIdx = GeoResult.err e) :
    geoPhase ora a cand env1 st1 =
      ({ st1 with
          geoIdx := st1.geoIdx + 1
          trace := st1.trace ++ [Event.geoObserve cand env1] }, false) := by
  simp [geoPhase, h, hg]

theorem sessionPhase_ok (ora : Oracle) (cand : String) (env1 : Option String)
    (st3 : LoopState) (ans : String)
    (hs : ora.session st3.sessIdx = Except.ok ans) :
    sessionPhase ora cand env1 st3 =
      ({ st3 with
          sessIdx := st3.sessIdx + 1
          trace := st3.trace ++ [Event.sessionAttempt (some cand) env1] },
        some (Outcome.okMcp cand ans)) := by
  simp [sessionPhase, hs]

theorem sessionPhase_err (ora : Oracle) (cand : String) (env1 : Option String)
    (st3 : LoopState) (tb : String)
    (hs : ora.session st3.sessIdx = Except.error tb) :
    sessionPhase ora cand env1 st3 =
      ({ st3 with
          sessIdx := st3.sessIdx + 1
          trace := st3.trace ++ [Event.sessionAttempt (some cand) env1]
          lastErr := some tb
          recorded := st3.recorded ++ [tb] }, none) := by
  simp [sessionPhase, hs]

/-! Facts about the traces and counters of one loop iteration. -/

theorem attemptsOf_append (xs ys : List Event) :
    attemptsOf (xs ++ ys) = attemptsOf xs ++ attemptsOf ys := by
  induction xs with
  | nil => rfl
  | cons e rest ih => cases e <;> simp [attemptsOf, ih]

/-- The geo gate: it never touches the session counter, the environment or
the candidate log of attempts; on `true` (reject) it records exactly one
reason and leaves `last_err` equal to the last recorded reason; on `false`
it records nothing. -/
theorem geoPhase_spec (ora : Oracle) (a : Args) (cand : String)
    (env1 : Option String) (st1 : LoopState) :
    ∃ st' b, geoPhase ora a cand env1 st1 = (st', b) ∧
      st'.sessIdx = st1.sessIdx ∧ st'.env = st1.env ∧
      (∃ t, st'.trace = st1.trace ++ t ∧ attemptsOf t = [] ∧
        ∀ c e, Event.sessionAttempt c e ∉ t) ∧
      (b = true → st'.lastErr = st'.recorded.getLast? ∧
        st'.recorded.length = st1.recorded.length + 1) ∧
      (b = false → st'.lastErr = st1.lastErr ∧ st'.recorded = st1.recorded) := by
  cases hskip : a.skipGeoCheck with
  | true =>
    rw [geoPhase_skip ora a cand env1 st1 hskip]
    exact ⟨st1, false, rfl, rfl, rfl, ⟨[], by simp [attemptsOf]⟩,
      by simp, fun _ => ⟨rfl, rfl⟩⟩
  | false =>
    cases hg : ora.geo st1.geoIdx with
    | ok data =>
      by_cases hbr : pyLower data.country = "br"
      · rw [geoPhase_reject ora a cand env1 st1 data hskip hg hbr]
        refine ⟨_, true, rfl, rfl, rfl,
          ⟨[Event.geoObserve cand env1], rfl, by simp [attemptsOf], by simp⟩,
          fun _ => ⟨?_, by simp⟩, by simp⟩
        simp
      · rw [geoPhase_pass ora a cand env1 st1 data hskip hg hbr]
        exact ⟨_, false, rfl, rfl, rfl,
          ⟨[Event.geoObserve cand env1], rfl, by simp [attemptsOf], by simp⟩,
          by simp, fun _ => ⟨rfl, rfl⟩⟩
    | err e =>
      rw [geoPhase_unknown ora a cand env1 st1 e hskip hg]
      exact ⟨_, false, rfl, rfl, rfl,
        ⟨[Event.geoObserve cand env1], rfl, by simp [attemptsOf], by simp⟩,
        by simp, fun _ => ⟨rfl, rfl⟩⟩

/-- The session attempt: it extends the trace with one session event, and
on failure records exactly one reason, leaving `last_err` equal to the
last recorded reason; on success it records nothing. -/
theorem sessionPhase_spec (ora : Oracle) (cand : String) (env1 : Option String)
    (st3 : LoopState) :
    ∃ st' r, sessionPhase ora cand env1 st3 = (st', r) ∧
      st'.sessIdx = st3.sessIdx + 1 ∧ st'.geoIdx = st3.geoIdx ∧
      st'.env = st3.env ∧
      st'.trace = st3.trace ++ [Event.sessionAttempt (some cand) env1] ∧
      (∀ out, r = some out → out = Outcome.okMcp cand
        ((ora.session st3.sessIdx).toOption.getD "") ∧
        st'.lastErr = st3.lastErr ∧ st'.recorded = st3.recorded) ∧
      (r = none → st'.lastErr = st'.recorded.getLast? ∧
        st'.recorded.length = st3.recorded.length + 1) := by
  cases hs : ora.session st3.sessIdx with
  | ok ans =>
    rw [sessionPhase_ok ora cand env1 st3 ans hs]
    exact ⟨_, _, rfl, rfl, rfl, rfl, rfl,
      fun out hout => ⟨by simp [hs] at hout ⊢; exact hout.symm, rfl, rfl⟩,
      by simp⟩
  | error tb =>
    rw [sessionPhase_err ora cand env1 st3 tb hs]
    exact ⟨_, _, rfl, rfl, rfl, rfl, rfl, by simp, fun _ => ⟨by simp, by simp⟩⟩

/-- One loop iteration: the trace grows by the candidate-attempt event
followed by further events none of which is a candidate attempt; a
returned outcome is `mcp_proxy_used` for this candidate and records no
reason; continuing records exactly one reason and leaves `last_err` equal
to the last recorded reason. -/
theorem stepCandidate_spec (ora : Oracle) (a : Args) (cand : String)
    (st : LoopState) :
    ∃ st' r, stepCandidate ora a cand st = (st', r) ∧
      (∃ t, st'.trace = st.trace ++ [Event.tryCandidate cand] ++ t ∧
        attemptsOf t = []) ∧
      (∀ out, r = some out → (∃ ans, out = Outcome.okMcp cand ans) ∧
        st'.lastErr = st.lastErr ∧ st'.recorded = st.recorded) ∧
      (r = none → st'.lastErr = st'.recorded.getLast? ∧
        st'.recorded.length = st.recorded.length + 1) := by
  obtain ⟨g, b, hgeo, hsess, henv, ⟨tg, htg, hag, hsg⟩, hbt, hbf⟩ :=
    geoPhase_spec ora a cand (stepEnv ora cand st) (stepSt1 ora cand st)
  cases b with
  | true =>
    refine ⟨g, none, ?_, ?_, by simp, ?_⟩
    · simp [stepCandidate, hgeo]
    · refine ⟨tg, ?_, hag⟩
      rw [htg]; rfl
    · intro _
      refine ⟨(hbt rfl).1, ?_⟩
      have h2 := (hbt rfl).2
      simpa [stepSt1] using h2
  | false =>
    obtain ⟨s', r, hsp, h1, h2, h3, h4, hstop, hcont⟩ :=
      sessionPhase_spec ora cand (stepEnv ora cand st) g
    refine ⟨s', r, ?_, ?_, ?_, ?_⟩
    · simp [stepCandidate, hgeo, hsp]
    · refine ⟨tg ++ [Event.sessionAttempt (some cand) (stepEnv ora cand st)],
        ?_, ?_⟩
      · rw [h4, htg]; simp [stepSt1]
      · simp [attemptsOf_append, hag, attemptsOf]
    · intro out hout
      obtain ⟨ho, hle, hrec⟩ := hstop out hout
      refine ⟨⟨_, ho⟩, ?_, ?_⟩
      · rw [hle, (hbf rfl).1]; rfl
      · rw [hrec, (hbf rfl).2]; rfl
    · intro hr
      obtain ⟨hl, hc⟩ := hcont hr
      refine ⟨hl, ?_⟩
      rw [hc, (hbf rfl).2]
      rfl

/-- The candidate loop: it only appends to the trace; the attempt events
it appends are a prefix of the candidate list, in order; any outcome it
returns is `mcp_proxy_used`; on exhaustion it records exactly one reason
per candidate and leaves `last_err` equal to the last recorded reason. -/
theorem tryCandidates_spec (ora : Oracle) (a : Args) (cands : List String) :
    ∀ st : LoopState,
      ∃ st' r, tryCandidates ora a cands st = (st', r) ∧
        (∃ t, st'.trace = st.trace ++ t) ∧
        (∃ k, attemptsOf st'.trace = attemptsOf st.trace ++ cands.take k) ∧
        (∀ out, r = some out → ∃ c ans, out = Outcome.okMcp c ans) ∧
        (r = none → st'.recorded.length = st.recorded.length + cands.length ∧
          (st.lastErr = st.recorded.getLast? →
            st'.lastErr = st'.recorded.getLast?)) := by
  induction cands with
  | nil =>
    intro st
    exact ⟨st, none, rfl, ⟨[], by simp⟩, ⟨0, by simp⟩, by simp,
      fun _ => ⟨by simp, id⟩⟩
  | cons cand rest ih =>
    intro st
    obtain ⟨s1, r1, hstep, ⟨t, ht, hat⟩, hstop, hcont⟩ :=
      stepCandidate_spec ora a cand st
    cases r1 with
    | some out =>
      refine ⟨s1, some out, ?_, ⟨[Event.tryCandidate cand] ++ t, by simpa using ht⟩,
        ?_, ?_, by simp⟩
      · simp [tryCandidates, hstep]
      · refine ⟨1, ?_⟩
        rw [ht]
        simp [attemptsOf_append, hat, attemptsOf]
      · intro o ho
        obtain ⟨⟨ans, ha⟩, _, _⟩ := hstop out rfl
        cases ho
        exact ⟨cand, ans, ha⟩
    | none =>
      obtain ⟨st', r, htail, ⟨t2, ht2⟩, ⟨k, hk⟩, hstop2, hcont2⟩ := ih s1
      refine ⟨st', r, ?_, ?_, ?_, hstop2, ?_⟩
      · simp [tryCandidates, hstep, htail]
      · refine ⟨[Event.tryCandidate cand] ++ t ++ t2, ?_⟩
        rw [ht2, ht]
        simp
      · refine ⟨k + 1, ?_⟩
        rw [hk, ht]
        simp [attemptsOf_append, hat, attemptsOf]
      · intro hr
        obtain ⟨hlen, hinv⟩ := hcont2 hr
        obtain ⟨hl1, hc1⟩ := hcont rfl
        constructor
        · rw [hlen, hc1]
          simp [Nat.add_assoc, Nat.add_comm 1 rest.length]
        · intro _
          exact hinv hl1

/-! The collaborator-facing state components (`sem`) and the produced
outcomes never depend on the inherited environment proxy variables or on
the trace: the environment is written, never read, by the resolver. -/

theorem geoPhase_sem (ora : Oracle) (a : Args) (cand : String)
    (e1 e1' : Option String) (st1 st1' : LoopState) (h : sem st1 = sem st1') :
    sem (geoPhase ora a cand e1 st1).1 = sem (geoPhase ora a cand e1' st1').1 ∧
    (geoPhase ora a cand e1 st1).2 = (geoPhase ora a cand e1' st1').2 := by
  obtain ⟨h1, h2, h3, h4⟩ : st1.geoIdx = st1'.geoIdx ∧ st1.sessIdx = st1'.sessIdx ∧
      st1.lastErr = st1'.lastErr ∧ st1.recorded = st1'.recorded := by
    simpa [sem, Prod.mk.injEq] using h
  cases hskip : a.skipGeoCheck with
  | true =>
    rw [geoPhase_skip _ _ _ _ _ hskip, geoPhase_skip _ _ _ _ _ hskip]
    exact ⟨h, rfl⟩
  | false =>
    cases hg : ora.geo st1.geoIdx with
    | ok data =>
      have hg' : ora.geo st1'.geoIdx = GeoResult.ok data := by rw [← h1]; exact hg
      by_cases hbr : pyLower data.country = "br"
      · rw [geoPhase_reject _ _ _ _ _ _ hskip hg hbr,
          geoPhase_reject _ _ _ _ _ _ hskip hg' hbr]
        exact ⟨by simp [sem, h1, h2, h4], rfl⟩
      · rw [geoPhase_pass _ _ _ _ _ _ hskip hg hbr,
          geoPhase_pass _ _ _ _ _ _ hskip hg' hbr]
        exact ⟨by simp [sem, h1, h2, h3, h4], rfl⟩
    | err e =>
      have hg' : ora.geo st1'.geoIdx = GeoResult.err e := by rw [← h1]; exact hg
      rw [geoPhase_unknown _ _ _ _ _ _ hskip hg,
        geoPhase_unknown _ _ _ _ _ _ hskip hg']
      exact ⟨by simp [sem, h1, h2, h3, h4], rfl⟩

theorem sessionPhase_sem (ora : Oracle) (cand : String)
    (e1 e1' : Option String) (st3 st3' : LoopState) (h : sem st3 = sem st3') :
    sem (sessionPhase ora cand e1 st3).1 = sem (sessionPhase ora cand e1' st3').1 ∧
    (sessionPhase ora cand e1 st3).2 = (sessionPhase ora cand e1' st3').2 := by
  obtain ⟨h1, h2, h3, h4⟩ : st3.geoIdx = st3'.geoIdx ∧ st3.sessIdx = st3'.sessIdx ∧
      st3.lastErr = st3'.lastErr ∧ st3.recorded = st3'.recorded := by
    simpa [sem, Prod.mk.injEq] using h
  cases hs : ora.session st3.sessIdx with
  | ok ans =>
    have hs' : ora.session st3'.sessIdx = Except.ok ans := by rw [← h2]; exact hs
    rw [sessionPhase_ok _ _ _ _ _ hs, sessionPhase_ok _ _ _ _ _ hs']
    exact ⟨by simp [sem, h1, h2, h3, h4], rfl⟩
  | error tb =>
    have hs' : ora.session st3'.sessIdx = Except.error tb := by rw [← h2]; exact hs
    rw [sessionPhase_err _ _ _ _ _ hs, sessionPhase_err _ _ _ _ _ hs']
    exact ⟨by simp [sem, h1, h2, h4], rfl⟩

theorem stepCandidate_sem (ora : Oracle) (a : Args) (cand : String)
    (st st' : LoopState) (h : sem st = sem st') :
    sem (stepCandidate ora a cand st).1 = sem (stepCandidate ora a cand st').1 ∧
    (stepCandidate ora a cand st).2 = (stepCandidate ora a cand st').2 := by
  have hsem1 : sem (stepSt1 ora cand st) = sem (stepSt1 ora cand st') := by
    simpa [sem, stepSt1] using h
  have hgp := geoPhase_sem ora a cand (stepEnv ora cand st) (stepEnv ora cand st')
    (stepSt1 ora cand st) (stepSt1 ora cand st') hsem1
  rcases hG : geoPhase ora a cand (stepEnv ora cand st) (stepSt1 ora cand st)
    with ⟨g1, b⟩
  rcases hG' : geoPhase ora a cand (stepEnv ora cand st') (stepSt1 ora cand st')
    with ⟨g1', b'⟩
  rw [hG, hG'] at hgp
  obtain ⟨hsemg, hbb⟩ := hgp
  simp only at hsemg hbb
  cases b with
  | true =>
    cases hbb
    simp [stepCandidate, hG, hG', hsemg]
  | false =>
    cases hbb
    have hsp := sessionPhase_sem ora cand (stepEnv ora cand st)
      (stepEnv ora cand st') g1 g1' hsemg
    simp [stepCandidate, hG, hG']
    exact hsp

theorem tryCandidates_sem (ora : Oracle) (a : Args) (cands : List String) :
    ∀ st st' : LoopState, sem st = sem st' →
      sem (tryCandidates ora a cands st).1 = sem (tryCandidates ora a cands st').1 ∧
      (tryCandidates ora a cands st).2 = (tryCandidates ora a cands st').2 := by
  induction cands with
  | nil => intro st st' h; exact ⟨h, rfl⟩
  | cons cand rest ih =>
    intro st st' h
    have hstep := stepCandidate_sem ora a cand st st' h
    rcases hS : stepCandidate ora a cand st with ⟨s1, r1⟩
    rcases hS' : stepCandidate ora a cand st' with ⟨s1', r1'⟩
    rw [hS, hS'] at hstep
    obtain ⟨hsem1, hrr⟩ := hstep
    simp only at hsem1 hrr
    cases r1 with
    | some out =>
      cases hrr
      simp [tryCandidates, hS, hS', hsem1]
    | none =>
      cases hrr
      have := ih s1 s1' hsem1
      simpa [tryCandidates, hS, hS'] using this

/-- The primary attempt: it never touches `last_err`, the recorded
reasons, the geo counter or the environment; it adds no candidate-attempt
and no fallback event to the trace; any outcome it returns is
`notte_proxy_br`. -/
theorem primaryPhase_spec (ora : Oracle) (a : Args) (st0 : LoopState) :
    ∃ st' r, primaryPhase ora a st0 = (st', r) ∧
      st'.lastErr = st0.lastErr ∧ st'.recorded = st0.recorded ∧
      st'.geoIdx = st0.geoIdx ∧ st'.env = st0.env ∧
      (∃ t, st'.trace = st0.trace ++ t ∧ attemptsOf t = [] ∧
        Event.fallbackComputed ∉ t) ∧
      (∀ out, r = some out → ∃ ans, out = Outcome.okBr ans) := by
  cases hforce : a.forceUseMcpRouter with
  | true =>
    refine ⟨st0, none, by simp [primaryPhase, hforce], rfl, rfl, rfl, rfl,
      ⟨[], by simp, by simp [attemptsOf], by simp⟩, by simp⟩
  | false =>
    cases hbr : ora.fromCountryBr with
    | error e =>
      refine ⟨st0, none, by simp [primaryPhase, hforce, hbr], rfl, rfl, rfl, rfl,
        ⟨[], by simp, by simp [attemptsOf], by simp⟩, by simp⟩
    | ok p =>
      cases hs : ora.session st0.sessIdx with
      | ok ans =>
        refine ⟨{ st0 with
            sessIdx := st0.sessIdx + 1
            trace := st0.trace ++ [Event.sessionAttempt none st0.env] },
          some (Outcome.okBr ans), by simp [primaryPhase, hforce, hbr, hs],
          rfl, rfl, rfl, rfl,
          ⟨[Event.sessionAttempt none st0.env], rfl, by simp [attemptsOf], by simp⟩,
          ?_⟩
        intro out hout
        cases hout
        exact ⟨ans, rfl⟩
      | error tb =>
        exact ⟨{ st0 with
            sessIdx := st0.sessIdx + 1
            trace := st0.trace ++ [Event.sessionAttempt none st0.env] },
          none, by simp [primaryPhase, hforce, hbr, hs], rfl, rfl, rfl, rfl,
          ⟨[Event.sessionAttempt none st0.env], rfl, by simp [attemptsOf], by simp⟩,
          by simp⟩

theorem primaryPhase_sem (ora : Oracle) (a : Args) (st0 st0' : LoopState)
    (h : sem st0 = sem st0') :
    sem (primaryPhase ora a st0).1 = sem (primaryPhase ora a st0').1 ∧
    (primaryPhase ora a st0).2 = (primaryPhase ora a st0').2 := by
  obtain ⟨h1, h2, h3, h4⟩ : st0.geoIdx = st0'.geoIdx ∧ st0.sessIdx = st0'.sessIdx ∧
      st0.lastErr = st0'.lastErr ∧ st0.recorded = st0'.recorded := by
    simpa [sem, Prod.mk.injEq] using h
  cases hforce : a.forceUseMcpRouter with
  | true => exact ⟨by simp [primaryPhase, hforce, h], by simp [primaryPhase, hforce]⟩
  | false =>
    cases hbr : ora.fromCountryBr with
    | error e =>
      exact ⟨by simp [primaryPhase, hforce, hbr, h], by simp [primaryPhase, hforce, hbr]⟩
    | ok p =>
      cases hs : ora.session st0.sessIdx with
      | ok ans =>
        have hs' : ora.session st0'.sessIdx = Except.ok ans := by rw [← h2]; exact hs
        exact ⟨by simp [primaryPhase, hforce, hbr, hs, hs', sem, h1, h2, h3, h4],
          by simp [primaryPhase, hforce, hbr, hs, hs']⟩
      | error tb =>
        have hs' : ora.session st0'.sessIdx = Except.error tb := by rw [← h2]; exact hs
        exact ⟨by simp [primaryPhase, hforce, hbr, hs, hs', sem, h1, h2, h3, h4],
          by simp [primaryPhase, hforce, hbr, hs, hs']⟩

theorem fallbackScan_sem (ora : Oracle) (a : Args) (st st' : LoopState)
    (h : sem st = sem st') :
    (fallbackScan ora a st).2 = (fallbackScan ora a st').2 := by
  have h1 : sem { st with trace := st.trace ++ [Event.fallbackComputed] } =
      sem { st' with trace := st'.trace ++ [Event.fallbackComputed] } := by
    simpa [sem] using h
  cases hempty : (buildCandidates ora a).isEmpty with
  | true => simp [fallbackScan, hempty]
  | false =>
    have htc := tryCandidates_sem ora a (buildCandidates ora a) _ _ h1
    rcases hT : tryCandidates ora a (buildCandidates ora a)
      { st with trace := st.trace ++ [Event.fallbackComputed] } with ⟨s2, r⟩
    rcases hT' : tryCandidates ora a (buildCandidates ora a)
      { st' with trace := st'.trace ++ [Event.fallbackComputed] } with ⟨s2', r'⟩
    rw [hT, hT'] at htc
    obtain ⟨hsem2, hrr⟩ := htc
    simp only at hsem2 hrr
    cases r with
    | some out =>
      cases hrr
      simp [fallbackScan, hempty, hT, hT']
    | none =>
      cases hrr
      have hle : s2.lastErr = s2'.lastErr := by
        have := hsem2
        simp [sem, Prod.mk.injEq] at this
        exact this.2.2.1
      simp [fallbackScan, hempty, hT, hT', hle]

/-- C8 core: the outcome dictionary of `_run_notte_sync` does not depend
on the inherited values of the environment proxy variables, the only
process state surviving across calls. -/
theorem run_sync_outcome_env (ora : Oracle) (a : Args) (env0 env0' : Option String) :
    (run_notte_sync ora a env0).map (fun rr => rr.outcome) =
    (run_notte_sync ora a env0').map (fun rr => rr.outcome) := by
  cases hinit : ora.clientInit with
  | error e => simp [run_notte_sync, hinit]
  | ok u =>
    have hsem0 : sem (initState env0) = sem (initState env0') := by
      simp [sem, initState]
    have hpp := primaryPhase_sem ora a _ _ hsem0
    rcases hP : primaryPhase ora a (initState env0) with ⟨s1, r1⟩
    rcases hP' : primaryPhase ora a (initState env0') with ⟨s1', r1'⟩
    rw [hP, hP'] at hpp
    obtain ⟨hsem1, hrr⟩ := hpp
    simp only at hsem1 hrr
    cases r1 with
    | some out =>
      cases hrr
      simp [run_notte_sync, hinit, hP, hP', Except.map]
    | none =>
      cases hrr
      have hfb := fallbackScan_sem ora a s1 s1' hsem1
      simp [run_notte_sync, hinit, hP, hP', hfb, Except.map]

/-- The fallback section attempts a prefix of the built candidate list and
nothing else. -/
theorem fallbackScan_attempts (ora : Oracle) (a : Args) (st : LoopState) :
    ∃ k, attemptsOf (fallbackScan ora a st).1.trace =
      attemptsOf st.trace ++ (buildCandidates ora a).take k := by
  cases hempty : (buildCandidates ora a).isEmpty with
  | true => exact ⟨0, by simp [fallbackScan, hempty, attemptsOf_append, attemptsOf]⟩
  | false =>
    obtain ⟨s2, r, hT, _, ⟨k, hk⟩, _, _⟩ :=
      tryCandidates_spec ora a (buildCandidates ora a)
        { st with trace := st.trace ++ [Event.fallbackComputed] }
    have hfb : (fallbackScan ora a st).1 = s2 := by
      cases r with
      | some out => simp [fallbackScan, hempty, hT]
      | none => simp [fallbackScan, hempty, hT]
    refine ⟨k, ?_⟩
    rw [hfb, hk]
    simp [attemptsOf_append, attemptsOf]

/-- C2: with `forceRouterFallback=false`, a primary candidate obtained and
its session succeeding, the outcome is the `notte_proxy_br` success
(`HomeCountryDirect`), no geo observation is ever performed, and the
fallback candidate path is never entered. -/
theorem C2_primary_success (ora : Oracle) (a : Args) (env0 : Option String)
    (p : Proxy) (ans : String)
    (hforce : a.forceUseMcpRouter = false)
    (hinit : ora.clientInit = Except.ok ())
    (hbr : ora.fromCountryBr = Except.ok p)
    (hsess : ora.session 0 = Except.ok ans) :
    ∃ rr, run_notte_sync ora a env0 = Except.ok rr ∧
      rr.outcome = Outcome.okBr ans ∧
      rr.outcome.route = "notte_proxy_br" ∧ rr.outcome.status = "ok" ∧
      rr.state.geoIdx = 0 ∧
      Event.fallbackComputed ∉ rr.state.trace ∧
      (∀ c e, Event.geoObserve c e ∉ rr.state.trace) := by
  have hP : primaryPhase ora a (initState env0) =
      ({ initState env0 with
          sessIdx := 1
          trace := [Event.sessionAttempt none env0] },
        some (Outcome.okBr ans)) := by
    simp [primaryPhase, hforce, hbr, initState, hsess]
  refine ⟨{ outcome := Outcome.okBr ans,
            state := { initState env0 with
              sessIdx := 1
              trace := [Event.sessionAttempt none env0] } },
    ?_, rfl, rfl, rfl, rfl, ?_, ?_⟩
  · simp [run_notte_sync, hinit, hP]
  · simp [initState]
  · intro c e
    simp [initState]

/-- C3: the fallback candidates attempted by a resolution call are a
prefix (in order, never reshuffled) of the list built by appending the
explicit-URL source, then the router-hostname source, then the discovery
source. -/
theorem C3_candidate_order (ora : Oracle) (a : Args) (env0 : Option String)
    (rr : RunResult) (h : run_notte_sync ora a env0 = Except.ok rr) :
    ∃ k, attemptsOf rr.state.trace =
      (explicitCandidates a ++ routerCandidates ora a ++
        discoveryCandidates ora a).take k := by
  cases hinit : ora.clientInit with
  | error e =>
    rw [run_notte_sync, hinit] at h
    cases h
  | ok u =>
    obtain ⟨s1, r1, hP, _, _, _, _, ⟨t1, ht1, hat1, _⟩, hstop⟩ :=
      primaryPhase_spec ora a (initState env0)
    have hs1 : attemptsOf s1.trace = [] := by
      rw [ht1]
      simp [initState, attemptsOf, attemptsOf_append, hat1]
    cases r1 with
    | some out =>
      have hrr : rr = { outcome := out, state := s1 } := by
        rw [run_notte_sync, hinit] at h
        simp [hP] at h
        exact h.symm
      refine ⟨0, ?_⟩
      rw [hrr]
      simpa using hs1
    | none =>
      obtain ⟨k, hk⟩ := fallbackScan_attempts ora a s1
      have hrr : rr = { outcome := (fallbackScan ora a s1).2
                        state := (fallbackScan ora a s1).1 } := by
        rw [run_notte_sync, hinit] at h
        simp [hP] at h
        exact h.symm
      refine ⟨k, ?_⟩
      rw [hrr]
      simpa [hs1, buildCandidates, List.append_assoc] using hk

/-- State after an iteration whose geo observation failed and whose
session attempt then raised `tb`: both counters advanced, the traceback
recorded, the three events of the iteration appended. -/
def geoErrFailState (ora : Oracle) (cand : String) (st : LoopState)
    (tb : String) : LoopState :=
  { st with
    env := stepEnv ora cand st
    geoIdx := st.geoIdx + 1
    sessIdx := st.sessIdx + 1
    lastErr := some tb
    recorded := st.recorded ++ [tb]
    trace := ((st.trace ++ [Event.tryCandidate cand]) ++
      [Event.geoObserve cand (stepEnv ora cand st)]) ++
      [Event.sessionAttempt (some cand) (stepEnv ora cand st)] }

/-- One iteration under a failed geo observation and a successful session:
the session attempt proceeds and the loop stops with the `mcp_proxy_used`
outcome. -/
theorem stepCandidate_geo_err_ok (ora : Oracle) (a : Args) (cand : String)
    (st : LoopState) (e ans : String)
    (hskip : a.skipGeoCheck = false)
    (hg : ora.geo st.geoIdx = GeoResult.err e)
    (hs : ora.session st.sessIdx = Except.ok ans) :
    stepCandidate ora a cand st =
      ({ st with
          env := stepEnv ora cand st
          geoIdx := st.geoIdx + 1
          sessIdx := st.sessIdx + 1
          trace := ((st.trace ++ [Event.tryCandidate cand]) ++
            [Event.geoObserve cand (stepEnv ora cand st)]) ++
            [Event.sessionAttempt (some cand) (stepEnv ora cand st)] },
        some (Outcome.okMcp cand ans)) := by
  have hg1 : ora.geo (stepSt1 ora cand st).geoIdx = GeoResult.err e := hg
  have hgeo := geoPhase_unknown ora a cand (stepEnv ora cand st)
    (stepSt1 ora cand st) e hskip hg1
  simp only [stepCandidate]
  rw [hgeo]
  simp [sessionPhase, stepSt1, hs]

/-- One iteration under a failed geo observation and a failing session:
the session attempt proceeds, its traceback is recorded, and the loop
continues. -/
theorem stepCandidate_geo_err_fail (ora : Oracle) (a : Args) (cand : String)
    (st : LoopState) (e tb : String)
    (hskip : a.skipGeoCheck = false)
    (hg : ora.geo st.geoIdx = GeoResult.err e)
    (hs : ora.session st.sessIdx = Except.error tb) :
    stepCandidate ora a cand st = (geoErrFailState ora cand st tb, none) := by
  have hg1 : ora.geo (stepSt1 ora cand st).geoIdx = GeoResult.err e := hg
  have hgeo := geoPhase_unknown ora a cand (stepEnv ora cand st)
    (stepSt1 ora cand st) e hskip hg1
  simp only [stepCandidate]
  rw [hgeo]
  simp [sessionPhase, stepSt1, hs, geoErrFailState]

/-- C4: in the fallback loop with `skipGeoCheck=false`, a successful geo
observation reporting the home country `br` means the session is never
invoked for that candidate — the loop records the rejection reason and
moves on.  A failed geo observation does not reject: the session attempt
for that candidate proceeds unconditionally (a session event for it is in
the trace whatever the session then does); a session success stops with
the `mcp_proxy_used` outcome for that candidate, a session failure records
the traceback and advances to the next candidate. -/
theorem C4_geo_gate (ora : Oracle) (a : Args) (st : LoopState) (cand : String)
    (rest : List String) (data : GeoData)
    (hskip : a.skipGeoCheck = false) :
    (ora.geo st.geoIdx = GeoResult.ok data → pyLower data.country = "br" →
      ∃ st1, tryCandidates ora a (cand :: rest) st = tryCandidates ora a rest st1 ∧
        st1.sessIdx = st.sessIdx ∧
        st1.lastErr = some (rejectMsg cand data.ip) ∧
        (∀ c env, Event.sessionAttempt c env ∈ st1.trace →
          Event.sessionAttempt c env ∈ st.trace)) ∧
    (∀ e, ora.geo st.geoIdx = GeoResult.err e →
      (Event.sessionAttempt (some cand) (stepEnv ora cand st) ∈
        (tryCandidates ora a (cand :: rest) st).1.trace) ∧
      (∀ ans, ora.session st.sessIdx = Except.ok ans →
        (tryCandidates ora a (cand :: rest) st).2 = some (Outcome.okMcp cand ans)) ∧
      (∀ tb, ora.session st.sessIdx = Except.error tb →
        ∃ st1, tryCandidates ora a (cand :: rest) st = tryCandidates ora a rest st1 ∧
          st1.sessIdx = st.sessIdx + 1 ∧ st1.lastErr = some tb ∧
          Event.sessionAttempt (some cand) (stepEnv ora cand st) ∈ st1.trace)) := by
  constructor
  · intro hg hbr
    have hg1 : ora.geo (stepSt1 ora cand st).geoIdx = GeoResult.ok data := hg
    have hgeo := geoPhase_reject ora a cand (stepEnv ora cand st)
      (stepSt1 ora cand st) data hskip hg1 hbr
    refine ⟨{ stepSt1 ora cand st with
        geoIdx := (stepSt1 ora cand st).geoIdx + 1
        trace := (stepSt1 ora cand st).trace ++
          [Event.geoObserve cand (stepEnv ora cand st)]
        lastErr := some (rejectMsg cand data.ip)
        recorded := (stepSt1 ora cand st).recorded ++ [rejectMsg cand data.ip] },
      ?_, rfl, rfl, ?_⟩
    · simp [tryCandidates, stepCandidate, hgeo]
    · intro c env hmem
      simp [stepSt1, List.mem_append] at hmem
      simpa using hmem
  · intro e hg
    refine ⟨?_, ?_, ?_⟩
    · cases hs : ora.session st.sessIdx with
      | ok ans =>
        have hstep := stepCandidate_geo_err_ok ora a cand st e ans hskip hg hs
        simp [tryCandidates, hstep]
      | error tb =>
        have hstep := stepCandidate_geo_err_fail ora a cand st e tb hskip hg hs
        have heq : tryCandidates ora a (cand :: rest) st =
            tryCandidates ora a rest (geoErrFailState ora cand st tb) := by
          simp [tryCandidates, hstep]
        obtain ⟨s2, r2, hT, ⟨t2, ht2⟩, _, _, _⟩ :=
          tryCandidates_spec ora a rest (geoErrFailState ora cand st tb)
        rw [heq, hT]
        simp only
        rw [ht2]
        simp [geoErrFailState, List.mem_append]
    · intro ans hok
      have hstep := stepCandidate_geo_err_ok ora a cand st e ans hskip hg hok
      simp [tryCandidates, hstep]
    · intro tb htb
      have hstep := stepCandidate_geo_err_fail ora a cand st e tb hskip hg htb
      refine ⟨geoErrFailState ora cand st tb, ?_, rfl, rfl, ?_⟩
      · simp [tryCandidates, hstep]
      · simp [geoErrFailState, List.mem_append]

/-- C5: when the fallback section is reached with an empty candidate list,
the outcome is the `no_mcp_candidates` error and no session attempt is
made. -/
theorem C5_no_candidates (ora : Oracle) (a : Args) (st : LoopState)
    (hempty : buildCandidates ora a = []) :
    (fallbackScan ora a st).2 = Outcome.noCandidates ∧
    (fallbackScan ora a st).2.route = "no_mcp_candidates" ∧
    (fallbackScan ora a st).2.status = "error" ∧
    (fallbackScan ora a st).1.sessIdx = st.sessIdx ∧
    ∀ c e, Event.sessionAttempt c e ∈ (fallbackScan ora a st).1.trace →
      Event.sessionAttempt c e ∈ st.trace := by
  have h : (buildCandidates ora a).isEmpty = true := by simp [hempty]
  refine ⟨by simp [fallbackScan, h], by simp [fallbackScan, h, Outcome.route],
    by simp [fallbackScan, h, Outcome.status], by simp [fallbackScan, h], ?_⟩
  intro c e hmem
  simp [fallbackScan, h, List.mem_append] at hmem
  simpa using hmem

/-- C8: two resolution calls with identical request parameters, identical
environment configuration and identical collaborator responses return the
same caller-visible value, whatever the inherited process proxy variables
(the only state surviving across calls) were at entry. -/
theorem C8_idempotent (ora : Oracle) (ev : EnvVars) (p : ToolParams)
    (env0 env0' : Option String) :
    (run_notte ora ev p env0).map viewOf = (run_notte ora ev p env0').map viewOf := by
  cases hkey : ((ev.NOTTE_API_KEY.getD "").isEmpty ||
      ((ev.NOTTE_API_KEY.getD "") == "SUA_CHAVE_API_PRO")) with
  | true => simp [run_notte, hkey]
  | false =>
    have h := run_sync_outcome_env ora (finalArgs ev p) env0 env0'
    cases hr : run_notte_sync ora (finalArgs ev p) env0 with
    | error e =>
      cases hr' : run_notte_sync ora (finalArgs ev p) env0' with
      | error e' =>
        rw [hr, hr'] at h
        simp [Except.map] at h
        simp [run_notte, hkey, hr, hr', Except.map, h]
      | ok rr' =>
        rw [hr, hr'] at h
        simp [Except.map] at h
    | ok rr =>
      cases hr' : run_notte_sync ora (finalArgs ev p) env0' with
      | error e' =>
        rw [hr, hr'] at h
        simp [Except.map] at h
      | ok rr' =>
        rw [hr, hr'] at h
        simp [Except.map] at h
        simp [run_notte, hkey, hr, hr', Except.map, viewOf, h]

/-- C10: the candidate-URL parser is total by construction (every
collaborator exception is swallowed); it returns `none` on `None` input,
on empty input, and whenever the direct-URL construction and the
host/port construction both fail. -/
theorem C10_parser_total (ora : Oracle) (url : String) :
    make_notte_proxy_from_url ora none = none ∧
    make_notte_proxy_from_url ora (some "") = none ∧
    ((ora.hasFromUrl = true → (ora.fromUrl (pyStrip url)).toOption = none) →
     (∀ h prt s, (ora.fromHostPort h prt s).toOption = none) →
     make_notte_proxy_from_url ora (some url) = none) := by
  refine ⟨rfl, rfl, ?_⟩
  intro h1 h2
  by_cases hempty : url.isEmpty
  · simp [make_notte_proxy_from_url, hempty]
  · have hvia : (if ora.hasFromUrl then (ora.fromUrl (pyStrip url)).toOption else none) =
        none := by
      cases hfu : ora.hasFromUrl with
      | false => simp
      | true => simpa using h1 hfu
    simp only [make_notte_proxy_from_url, hempty, if_false, hvia]
    cases hh : (ora.urlparse (pyStrip url)).hostname with
    | none => simp [hh]
    | some hst =>
      cases hp : (ora.urlparse (pyStrip url)).port with
      | none => simp [hh, hp]
      | some prt => simp [hh, hp, h2]

/-! Concrete collaborator-response sets and configurations used to
instantiate the theorems on closed inputs. -/

/-- Equality of `Except` results is decidable when both payloads are. -/
def exceptDecEq {α β : Type} [DecidableEq α] [DecidableEq β] :
    DecidableEq (Except α β) := fun x y =>
  match x, y with
  | Except.ok a, Except.ok b =>
    if h : a = b then isTrue (by rw [h]) else isFalse (by simp [h])
  | Except.error a, Except.error b =>
    if h : a = b then isTrue (by rw [h]) else isFalse (by simp [h])
  | Except.ok _, Except.error _ => isFalse (by simp)
  | Except.error _, Except.ok _ => isFalse (by simp)

instance : DecidableEq (Except String RunResult) := exceptDecEq

instance : DecidableEq (Except String ToolReturn) := exceptDecEq

/-- Baseline responses: client construction succeeds, everything else
fails. -/
def oraBase : Oracle :=
  { clientInit := Except.ok ()
    fromCountryBr := Except.error "provider down"
    hasFromUrl := false
    fromUrl := fun _ => Except.error "no"
    hasFromHostPort := false
    fromHostPort := fun _ _ _ => Except.error "no"
    urlparse := fun _ => { scheme := "", hostname := none, port := none }
    resolveHostname := fun _ => none
    discoveryGet := Except.error "down"
    geo := fun _ => GeoResult.err "geo down"
    session := fun _ => Except.error "session down" }

def proxyA : Proxy := { tag := "br-proxy" }

/-- Responses where the primary proxy is obtained and every session
succeeds. -/
def oraC2 : Oracle :=
  { oraBase with
    fromCountryBr := Except.ok proxyA
    session := fun _ => Except.ok "answer" }

/-- A plain request: no fallback sources configured, geo check on, router
not forced. -/
def argsC2 : Args :=
  { targetUrl := "https://shopee.com.br"
    browserType := "firefox"
    headless := false
    locale := "pt-BR"
    mcpProxyUrl := none
    mcpRouterHostname := none
    fastcloudApiUrl := none
    fastcloudApiToken := none
    skipGeoCheck := false
    forceUseMcpRouter := false }

/-- Responses where every geo observation reports the home country. -/
def oraC4 : Oracle :=
  { oraBase with geo := fun _ => GeoResult.ok { country := "br", ip := "203.0.113.9" } }

/-- Responses with a `from_url` constructor present but always raising. -/
def oraC10 : Oracle := { oraBase with hasFromUrl := true }

/-- Responses giving two parseable fallback candidates whose sessions fail
with two distinct errors. -/
def oraC1 : Oracle :=
  { oraBase with
    hasFromUrl := true
    fromUrl := fun _ => Except.ok { tag := "parsed" }
    urlparse := fun s =>
      if s == "candB" then { scheme := "socks5", hostname := some "b", port := some 1080 }
      else { scheme := "", hostname := none, port := none }
    session := fun k => if k == 0 then Except.error "E1" else Except.error "E2" }

/-- Two fallback sources, geo check skipped, router forced. -/
def argsC1 : Args :=
  { argsC2 with
    mcpProxyUrl := some "candA"
    mcpRouterHostname := some "candB"
    skipGeoCheck := true
    forceUseMcpRouter := true }

/-- Responses where the first candidate fails to parse (so the
environment proxy variables are overwritten with it) and the second
parses successfully (so they are not). -/
def oraC7 : Oracle :=
  { oraBase with
    hasFromUrl := true
    fromUrl := fun u => if u == "goodurl" then Except.ok { tag := "p2" }
      else Except.error "parse fail"
    urlparse := fun s =>
      if s == "goodurl" then { scheme := "socks5", hostname := some "g", port := some 1080 }
      else { scheme := "", hostname := none, port := none }
    session := fun k => if k == 0 then Except.error "sess1" else Except.error "sess2" }

/-- An unparseable explicit candidate before a parseable router one, geo
check on, router forced. -/
def argsC7 : Args :=
  { argsC2 with
    mcpProxyUrl := some "badurl"
    mcpRouterHostname := some "goodurl"
    forceUseMcpRouter := true }

/-- Environment with a set API key, an empty target URL and an
unrecognized browser type, and no fallback sources. -/
def envC6 : EnvVars :=
  { NOTTE_API_KEY := some "key123"
    TARGET_URL := some ""
    HEADLESS := none
    BROWSER_TYPE := some "not-a-browser"
    LOCALE := none
    MCP_PROXY_URL := none
    MCP_ROUTER_HOSTNAME := none
    FASTCLOUD_API_URL := none
    FASTCLOUD_API_TOKEN := none
    FORCE_USE_MCP_ROUTER := none
    SKIP_GEO_CHECK := none }

/-- Tool parameters forcing the router fallback and supplying nothing
else. -/
def paramsC6 : ToolParams :=
  { target_url := none
    headless := none
    browser_type := none
    locale := none
    use_mcp_router := some true
    skip_geo_check := none }

/-- Responses where constructing the client raises. -/
def oraC9 : Oracle := { oraBase with clientInit := Except.error "boom" }

/-- The value `_run_notte_sync` computes for `oraC1`/`argsC1`: both
candidates fail, two reasons are recorded, only `E2` is returned. -/
def rrC1 : RunResult :=
  { outcome := Outcome.allFailed (some "E2")
    state := { env := none
               geoIdx := 0
               sessIdx := 2
               lastErr := some "E2"
               recorded := ["E1", "E2"]
               trace := [Event.fallbackComputed,
                 Event.tryCandidate "candA",
                 Event.sessionAttempt (some "candA") none,
                 Event.tryCandidate "candB",
                 Event.sessionAttempt (some "candB") none] } }

/-- C1 counterexample: two candidates are tried, both fail, and two
distinct reasons (`E1` then `E2`) are recorded; but the returned
`mcp_all_failed` outcome carries only the string `E2`, which does not
contain the first recorded reason — the aggregation the claim requires is
absent. -/
theorem C1_counterexample :
    run_notte_sync oraC1 argsC1 none = Except.ok rrC1 ∧
    rrC1.state.recorded = ["E1", "E2"] ∧
    rrC1.outcome = Outcome.allFailed (some "E2") ∧
    ("E1" : String) ≠ "E2" ∧
    ¬ (("E1" : String).data <:+: ("E2" : String).data) := by
  exact ⟨by decide, rfl, rfl, by decide, by decide⟩

/-- C1 amended: when every fallback candidate is tried and fails, the
outcome is the `mcp_all_failed` failure; one reason per candidate is
recorded, in the order tried, but the returned `error` field carries only
the last recorded reason, not an aggregation of all of them. -/
theorem C1_amended_last_error (ora : Oracle) (a : Args) (env0 : Option String)
    (rr : RunResult) (e : Option String)
    (hrun : run_notte_sync ora a env0 = Except.ok rr)
    (hout : rr.outcome = Outcome.allFailed e) :
    buildCandidates ora a ≠ [] ∧
    rr.state.recorded.length = (buildCandidates ora a).length ∧
    e = rr.state.recorded.getLast? := by
  cases hinit : ora.clientInit with
  | error e0 =>
    rw [run_notte_sync, hinit] at hrun
    cases hrun
  | ok u =>
    obtain ⟨s1, r1, hP, hle1, hrec1, _, _, _, hstop⟩ :=
      primaryPhase_spec ora a (initState env0)
    cases r1 with
    | some out =>
      have hrr : rr = { outcome := out, state := s1 } := by
        rw [run_notte_sync, hinit] at hrun
        simp [hP] at hrun
        exact hrun.symm
      obtain ⟨ans, ha⟩ := hstop out rfl
      rw [hrr, ha] at hout
      simp at hout
    | none =>
      have hrr : rr = { outcome := (fallbackScan ora a s1).2
                        state := (fallbackScan ora a s1).1 } := by
        rw [run_notte_sync, hinit] at hrun
        simp [hP] at hrun
        exact hrun.symm
      cases hempty : (buildCandidates ora a).isEmpty with
      | true =>
        have hnc : (fallbackScan ora a s1).2 = Outcome.noCandidates := by
          simp [fallbackScan, hempty]
        rw [hrr] at hout
        simp [hnc] at hout
      | false =>
        obtain ⟨s2, r, hT, _, _, hstop2, hcont2⟩ :=
          tryCandidates_spec ora a (buildCandidates ora a)
            { s1 with trace := s1.trace ++ [Event.fallbackComputed] }
        cases r with
        | some out2 =>
          have hfb : (fallbackScan ora a s1).2 = out2 := by
            simp [fallbackScan, hempty, hT]
          obtain ⟨c, ans, ho⟩ := hstop2 out2 rfl
          rw [hrr] at hout
          simp [hfb, ho] at hout
        | none =>
          have hfb2 : (fallbackScan ora a s1).2 = Outcome.allFailed s2.lastErr := by
            simp [fallbackScan, hempty, hT]
          have hfb1 : (fallbackScan ora a s1).1 = s2 := by
            simp [fallbackScan, hempty, hT]
          have hrec0 : s1.recorded = [] := by
            rw [hrec1]; rfl
          have hle0 : s1.lastErr = none := by
            rw [hle1]; rfl
          obtain ⟨hlen, hinv⟩ := hcont2 rfl
          have hinv2 : s2.lastErr = s2.recorded.getLast? := by
            apply hinv
            simp [hrec0, hle0]
          refine ⟨fun hc => by simp [hc] at hempty, ?_, ?_⟩
          · rw [hrr]
            simp only [hfb1]
            simpa [hrec0] using hlen
          · rw [hrr] at hout
            rw [hfb2] at hout
            have he : s2.lastErr = e := by simpa using hout
            rw [hrr]
            simp only [hfb1]
            rw [← he, hinv2]

/-- C6 counterexample: with a set API key, an empty final target URL and
an unrecognized browser type, no configuration error is raised — the
resolver state machine runs (the fallback section is entered) and returns
an ordinary resolution outcome. -/
theorem C6_counterexample :
    (finalArgs envC6 paramsC6).targetUrl = "" ∧
    (finalArgs envC6 paramsC6).browserType = "not-a-browser" ∧
    run_notte oraBase envC6 paramsC6 none =
      Except.ok (ToolReturn.resolved
        { outcome := Outcome.noCandidates
          state := { env := none
                     geoIdx := 0
                     sessIdx := 0
                     lastErr := none
                     recorded := []
                     trace := [Event.fallbackComputed] } }) := by
  exact ⟨rfl, rfl, by decide⟩

/-- C6 amended: the only check made before the resolver state machine
starts is that `NOTTE_API_KEY` is neither unset/empty nor the placeholder;
when it fails, the configuration-error dictionary is returned immediately;
when it passes, the call goes straight into `_run_notte_sync` — the target
URL and the browser type are never validated. -/
theorem C6_amended_only_key_checked (ora : Oracle) (ev : EnvVars)
    (p : ToolParams) (env0 : Option String) :
    (((ev.NOTTE_API_KEY.getD "").isEmpty ||
        ((ev.NOTTE_API_KEY.getD "") == "SUA_CHAVE_API_PRO")) = true →
      run_notte ora ev p env0 =
        Except.ok (ToolReturn.configError "NOTTE_API_KEY não definido.")) ∧
    (((ev.NOTTE_API_KEY.getD "").isEmpty ||
        ((ev.NOTTE_API_KEY.getD "") == "SUA_CHAVE_API_PRO")) = false →
      run_notte ora ev p env0 =
        (run_notte_sync ora (finalArgs ev p) env0).map ToolReturn.resolved) := by
  constructor <;> intro hkey <;> simp [run_notte, hkey]

/-- The value `_run_notte_sync` computes for `oraC7`/`argsC7`: the second
candidate parses, so the environment proxy variables keep the first,
unparseable candidate's URL through the second candidate's geo observation
and session attempt. -/
def rrC7 : RunResult :=
  { outcome := Outcome.allFailed (some "sess2")
    state := { env := some "badurl"
               geoIdx := 2
               sessIdx := 2
               lastErr := some "sess2"
               recorded := ["sess1", "sess2"]
               trace := [Event.fallbackComputed,
                 Event.tryCandidate "badurl",
                 Event.geoObserve "badurl" (some "badurl"),
                 Event.sessionAttempt (some "badurl") (some "badurl"),
                 Event.tryCandidate "goodurl",
                 Event.geoObserve "goodurl" (some "badurl"),
                 Event.sessionAttempt (some "goodurl") (some "badurl")] } }

/-- C7 counterexample: candidate `badurl` fails to parse, so the
environment proxy variables are set to it; the next candidate `goodurl`
parses, so the variables are never overwritten for it — its geo
observation and session attempt still run under `badurl`'s environment
configuration, which the claim says must have been superseded. -/
theorem C7_counterexample :
    run_notte_sync oraC7 argsC7 none = Except.ok rrC7 ∧
    make_notte_proxy_from_url oraC7 (some "goodurl") = some { tag := "p2" } ∧
    Event.geoObserve "goodurl" (some "badurl") ∈ rrC7.state.trace ∧
    Event.sessionAttempt (some "goodurl") (some "badurl") ∈ rrC7.state.trace := by
  exact ⟨by decide, by decide, by decide, by decide⟩

/-- C7 amended: the environment proxy variables are overwritten for a
candidate exactly when the candidate fails to parse into a proxy object
and is non-empty (an empty candidate is a no-op, per the guard in
`_set_env_proxy_vars`); when a candidate parses successfully, whatever
setting was previously in force (possibly an earlier candidate's)
persists, unsuperseded, through this candidate's entire iteration: its
geo observation (when the geo check is on) and its session attempt both
run under `stepEnv` — the only session event the iteration can add
carries exactly that setting. -/
theorem C7_amended_env_supersede (ora : Oracle) (a : Args) (st : LoopState)
    (cand : String) (rest : List String) (p : Proxy) :
    (make_notte_proxy_from_url ora (some cand) = none → ¬ cand.isEmpty →
      stepEnv ora cand st = some cand) ∧
    (make_notte_proxy_from_url ora (some cand) = none → cand.isEmpty →
      stepEnv ora cand st = st.env) ∧
    (make_notte_proxy_from_url ora (some cand) = some p →
      stepEnv ora cand st = st.env) ∧
    (a.skipGeoCheck = false →
      Event.geoObserve cand (stepEnv ora cand st) ∈
        (tryCandidates ora a (cand :: rest) st).1.trace) ∧
    (∀ st' r, stepCandidate ora a cand st = (st', r) →
      ∀ c env1, Event.sessionAttempt c env1 ∈ st'.trace →
        Event.sessionAttempt c env1 ∈ st.trace ∨
        (c = some cand ∧ env1 = stepEnv ora cand st)) := by
  refine ⟨?_, ?_, ?_, ?_, ?_⟩
  · intro h hne
    simp [stepEnv, set_env_proxy_vars, h, hne]
  · intro h he
    simp [stepEnv, set_env_proxy_vars, h, he]
  · intro h
    simp [stepEnv, h]
  · intro hskip
    have hgeo_mem : Event.geoObserve cand (stepEnv ora cand st) ∈
        (geoPhase ora a cand (stepEnv ora cand st) (stepSt1 ora cand st)).1.trace := by
      cases hg : ora.geo (stepSt1 ora cand st).geoIdx with
      | ok data =>
        by_cases hbr : pyLower data.country = "br"
        · rw [geoPhase_reject _ _ _ _ _ _ hskip hg hbr]; simp
        · rw [geoPhase_pass _ _ _ _ _ _ hskip hg hbr]; simp
      | err e2 =>
        rw [geoPhase_unknown _ _ _ _ _ _ hskip hg]; simp
    have hstep_mem : Event.geoObserve cand (stepEnv ora cand st) ∈
        (stepCandidate ora a cand st).1.trace := by
      rcases hG : geoPhase ora a cand (stepEnv ora cand st) (stepSt1 ora cand st)
        with ⟨g, b⟩
      rw [hG] at hgeo_mem
      cases b with
      | true => simpa [stepCandidate, hG] using hgeo_mem
      | false =>
        obtain ⟨s', r, hsp, _, _, _, h4, _, _⟩ :=
          sessionPhase_spec ora cand (stepEnv ora cand st) g
        simp only [stepCandidate, hG, hsp]
        rw [h4]
        simp only [List.mem_append]
        exact Or.inl hgeo_mem
    rcases hS : stepCandidate ora a cand st with ⟨s1, r1⟩
    rw [hS] at hstep_mem
    cases r1 with
    | some out => simpa [tryCandidates, hS] using hstep_mem
    | none =>
      obtain ⟨s2, r2, hT, ⟨t2, ht2⟩, _, _, _⟩ := tryCandidates_spec ora a rest s1
      simp only [tryCandidates, hS, hT]
      rw [ht2]
      simp only [List.mem_append]
      exact Or.inl hstep_mem
  · intro st' r hstep c env1 hmem
    obtain ⟨g, b, hgeo, hsess, henv, ⟨tg, htg, hag, hsg⟩, hbt, hbf⟩ :=
      geoPhase_spec ora a cand (stepEnv ora cand st) (stepSt1 ora cand st)
    cases b with
    | true =>
      have hG : stepCandidate ora a cand st = (g, none) := by
        simp [stepCandidate, hgeo]
      rw [hG] at hstep
      injection hstep with h1 h2
      subst h1
      rw [htg] at hmem
      simp only [stepSt1, List.mem_append] at hmem
      rcases hmem with (hmem | hmem) | hmem
      · exact Or.inl hmem
      · simp at hmem
      · exact absurd hmem (hsg c env1)
    | false =>
      obtain ⟨s', r', hsp, _, _, _, h4, _, _⟩ :=
        sessionPhase_spec ora cand (stepEnv ora cand st) g
      have hG : stepCandidate ora a cand st = (s', r') := by
        simp [stepCandidate, hgeo, hsp]
      rw [hG] at hstep
      injection hstep with h1 h2
      subst h1
      rw [h4, htg] at hmem
      simp only [stepSt1, List.mem_append] at hmem
      rcases hmem with ((hmem | hmem) | hmem) | hmem
      · exact Or.inl hmem
      · simp at hmem
      · exact absurd hmem (hsg c env1)
      · right
        simp at hmem
        exact ⟨hmem.1, hmem.2⟩

/-- C9 counterexample: when constructing the `NotteClient` raises (line
141 is outside every handler), the exception propagates raw out of the
`run_notte` boundary instead of a structured result. -/
theorem C9_counterexample :
    run_notte oraC9 { envC6 with NOTTE_API_KEY := some "valid-key" } paramsC6 none =
      Except.error "boom" := by decide

/-- After a successful client construction, `_run_notte_sync` always
returns a dictionary — every other collaborator failure is handled. -/
theorem run_sync_total (ora : Oracle) (a : Args) (env0 : Option String)
    (hinit : ora.clientInit = Except.ok ()) :
    ∃ rr, run_notte_sync ora a env0 = Except.ok rr := by
  rcases hP : primaryPhase ora a (initState env0) with ⟨s1, r1⟩
  cases r1 with
  | some out =>
    exact ⟨{ outcome := out, state := s1 }, by simp [run_notte_sync, hinit, hP]⟩
  | none =>
    exact ⟨{ outcome := (fallbackScan ora a s1).2, state := (fallbackScan ora a s1).1 },
      by simp [run_notte_sync, hinit, hP]⟩

/-- C9 amended: provided client construction succeeds, the boundary
interface always returns a structured value (a configuration-error
dictionary or a resolution outcome), whatever every other collaborator
does; only a client-construction exception escapes raw. -/
theorem C9_amended_structured (ora : Oracle) (ev : EnvVars) (p : ToolParams)
    (env0 : Option String) (hinit : ora.clientInit = Except.ok ()) :
    ∃ t : ToolReturn, run_notte ora ev p env0 = Except.ok t := by
  cases hkey : ((ev.NOTTE_API_KEY.getD "").isEmpty ||
      ((ev.NOTTE_API_KEY.getD "") == "SUA_CHAVE_API_PRO")) with
  | true =>
    exact ⟨ToolReturn.configError "NOTTE_API_KEY não definido.",
      by simp [run_notte, hkey]⟩
  | false =>
    obtain ⟨rr, hrr⟩ := run_sync_total ora (finalArgs ev p) env0 hinit
    exact ⟨ToolReturn.resolved rr, by simp [run_notte, hkey, hrr, Except.map]⟩

/-! Closed instantiations of the hypothesis-bearing theorems. -/

theorem C2_primary_success_witness :
    ∃ rr, run_notte_sync oraC2 argsC2 none = Except.ok rr ∧
      rr.outcome = Outcome.okBr "answer" ∧
      rr.outcome.route = "notte_proxy_br" ∧ rr.outcome.status = "ok" ∧
      rr.state.geoIdx = 0 ∧
      Event.fallbackComputed ∉ rr.state.trace ∧
      (∀ c e, Event.geoObserve c e ∉ rr.state.trace) :=
  C2_primary_success oraC2 argsC2 none proxyA "answer" rfl rfl rfl rfl

/-- The value `_run_notte_sync` computes for `oraC2`/`argsC2`: primary
succeeds at once. -/
def rrC3 : RunResult :=
  { outcome := Outcome.okBr "answer"
    state := { env := none
               geoIdx := 0
               sessIdx := 1
               lastErr := none
               recorded := []
               trace := [Event.sessionAttempt none none] } }

theorem C3_candidate_order_witness :
    ∃ k, attemptsOf rrC3.state.trace =
      (explicitCandidates argsC2 ++ routerCandidates oraC2 argsC2 ++
        discoveryCandidates oraC2 argsC2).take k :=
  C3_candidate_order oraC2 argsC2 none rrC3 (by decide)

theorem C4_geo_gate_witness :
    (∃ st1, tryCandidates oraC4 argsC2 ["cand1"] (initState none) =
        tryCandidates oraC4 argsC2 [] st1 ∧
      st1.sessIdx = (initState none).sessIdx ∧
      st1.lastErr = some (rejectMsg "cand1" "203.0.113.9") ∧
      (∀ c env, Event.sessionAttempt c env ∈ st1.trace →
        Event.sessionAttempt c env ∈ (initState none).trace)) ∧
    (Event.sessionAttempt (some "cand2") (stepEnv oraBase "cand2" (initState none)) ∈
      (tryCandidates oraBase argsC2 ["cand2"] (initState none)).1.trace) ∧
    (∃ st1, tryCandidates oraBase argsC2 ["cand2"] (initState none) =
        tryCandidates oraBase argsC2 [] st1 ∧
      st1.sessIdx = (initState none).sessIdx + 1 ∧
      st1.lastErr = some "session down" ∧
      Event.sessionAttempt (some "cand2") (stepEnv oraBase "cand2" (initState none)) ∈
        st1.trace) :=
  ⟨(C4_geo_gate oraC4 argsC2 (initState none) "cand1" []
      { country := "br", ip := "203.0.113.9" } rfl).1 rfl (by decide),
   ((C4_geo_gate oraBase argsC2 (initState none) "cand2" []
      { country := "", ip := "" } rfl).2 "geo down" rfl).1,
   ((C4_geo_gate oraBase argsC2 (initState none) "cand2" []
      { country := "", ip := "" } rfl).2 "geo down" rfl).2.2 "session down" rfl⟩

theorem C5_no_candidates_witness :
    (fallbackScan oraBase argsC2 (initState none)).2 = Outcome.noCandidates ∧
    (fallbackScan oraBase argsC2 (initState none)).2.route = "no_mcp_candidates" ∧
    (fallbackScan oraBase argsC2 (initState none)).2.status = "error" ∧
    (fallbackScan oraBase argsC2 (initState none)).1.sessIdx =
      (initState none).sessIdx ∧
    ∀ c e, Event.sessionAttempt c e ∈
        (fallbackScan oraBase argsC2 (initState none)).1.trace →
      Event.sessionAttempt c e ∈ (initState none).trace :=
  C5_no_candidates oraBase argsC2 (initState none) rfl

theorem C10_parser_total_witness :
    make_notte_proxy_from_url oraC10 (some "socks5://198.51.100.7:1080") = none :=
  (C10_parser_total oraC10 "socks5://198.51.100.7:1080").2.2
    (fun _ => rfl) (fun _ _ _ => rfl)

theorem C1_amended_witness :
    buildCandidates oraC1 argsC1 ≠ [] ∧
    rrC1.state.recorded.length = (buildCandidates oraC1 argsC1).length ∧
    (some "E2" : Option String) = rrC1.state.recorded.getLast? :=
  C1_amended_last_error oraC1 argsC1 none rrC1 (some "E2") (by decide) rfl

theorem C6_amended_witness :
    run_notte oraBase { envC6 with NOTTE_API_KEY := none } paramsC6 none =
      Except.ok (ToolReturn.configError "NOTTE_API_KEY não definido.") :=
  (C6_amended_only_key_checked oraBase { envC6 with NOTTE_API_KEY := none }
    paramsC6 none).1 (by decide)

theorem C7_amended_witness :
    stepEnv oraC7 "badurl" (initState none) = some "badurl" ∧
    stepEnv oraC7 "goodurl" { initState none with env := some "badurl" } =
      ({ initState none with env := some "badurl" } : LoopState).env ∧
    Event.geoObserve "badurl" (stepEnv oraC7 "badurl" (initState none)) ∈
      (tryCandidates oraC7 argsC7 ["badurl"] (initState none)).1.trace :=
  ⟨(C7_amended_env_supersede oraC7 argsC7 (initState none) "badurl" []
      { tag := "p2" }).1 (by decide) (by decide),
   (C7_amended_env_supersede oraC7 argsC7
      { initState none with env := some "badurl" } "goodurl" []
      { tag := "p2" }).2.2.1 (by decide),
   (C7_amended_env_supersede oraC7 argsC7 (initState none) "badurl" []
      { tag := "p2" }).2.2.2.1 rfl⟩

theorem C9_amended_witness :
    ∃ t : ToolReturn, run_notte oraBase envC6 paramsC6 none = Except.ok t :=
  C9_amended_structured oraBase envC6 paramsC6 none rfl

end NotteMCP
